import Mathlib

/-!
Shallow embedding of `src/config-switch-int.py`, a generator of systemd-networkd
`.link`/`.network` configuration and advisory `bridge vlan` commands.

Modelling conventions:
- Python optional strings (`None` / `str`) become `Option String`; Python
  truthiness of such a value (`None` and `""` are falsy) is `truthy`.
- File and console reads are passed in as explicit parameters (`Option String`
  where `none` models a missing file or a failed read that the code swallows).
- The regular-expression scans of the source are embedded as fuel-based
  character-list scanners that follow the exact patterns used in the code
  (`re.search`, `re.findall`, lazy section capture `(.*?)(?=\[|$)` with
  `re.DOTALL`, where Python `$` also matches just before a final newline).
- `list(set(a + b))` is modelled as `(a ++ b).dedup`: the Python iteration
  order of a `set` is unspecified, and every property proved about the merged
  list is order-independent (set membership and duplicate-freeness).
-/

/-- Characters stripped by Python `str.strip()` (the ASCII whitespace set). -/
def pyWhitespace (c : Char) : Bool :=
  c = ' ' || c = '\t' || c = '\n' || c = '\r' || c = '\x0b' || c = '\x0c'

/-- Python `str.strip()` on a character list. -/
def pyStripList (cs : List Char) : List Char :=
  ((cs.dropWhile pyWhitespace).reverse.dropWhile pyWhitespace).reverse

/-- Python `str.strip()`. -/
def pyStrip (s : String) : String := ⟨pyStripList s.data⟩

/-- Python `str.lower()` on one character (all code points the program
compares against are ASCII). -/
def lowerChar (c : Char) : Char :=
  if 65 ≤ c.toNat ∧ c.toNat ≤ 90 then Char.ofNat (c.toNat + 32) else c

/-- Python `str.lower()`. -/
def pyLower (s : String) : String := ⟨s.data.map lowerChar⟩

/-- Python truthiness of an optional string: `None` and `""` are falsy. -/
def truthy : Option String → Bool
  | none => false
  | some s => s ≠ ""

/-- Python `str.split(',')` helper: accumulates the current field (reversed). -/
def splitCommaAux : List Char → List Char → List String
  | acc, [] => [⟨acc.reverse⟩]
  | acc, c :: rest =>
    if c = ',' then ⟨acc.reverse⟩ :: splitCommaAux [] rest
    else splitCommaAux (c :: acc) rest

/-- Python `str.split(',')`: splits at every comma, keeping empty fields. -/
def pySplitComma (s : String) : List String := splitCommaAux [] s.data

/-- Literal (case-sensitive) match of `pat` at the head of `cs`; returns the
rest after the pattern. -/
def dropLit : List Char → List Char → Option (List Char)
  | [], cs => some cs
  | _ :: _, [] => none
  | p :: ps, c :: cs => if p = c then dropLit ps cs else none

/-- Literal case-insensitive match (models `re.IGNORECASE` on ASCII patterns). -/
def dropLitCI : List Char → List Char → Option (List Char)
  | [], cs => some cs
  | _ :: _, [] => none
  | p :: ps, c :: cs => if lowerChar p = lowerChar c then dropLitCI ps cs else none

/-- Rest of the text after the first (leftmost) occurrence of `pat`,
scanning position by position as `re.search` does; fuel-based recursion. -/
def afterFirstAux (pat : List Char) : Nat → List Char → Option (List Char)
  | 0, _ => none
  | fuel + 1, cs =>
    match dropLit pat cs with
    | some rest => some rest
    | none =>
      match cs with
      | [] => none
      | _ :: rest => afterFirstAux pat fuel rest

/-- Rest of the text after the first occurrence of `pat` in `cs`. -/
def afterFirst (pat cs : List Char) : Option (List Char) :=
  afterFirstAux pat (cs.length + 1) cs

/-- Python `pat in content` (substring test). -/
def occursIn (pat s : String) : Bool := (afterFirst pat.data s.data).isSome

/-- Lazy capture `(.*?)` under `re.DOTALL` stopped by the lookahead `(?=\[|$)`:
ends at the first `[`, at the end of the text, or (Python `$`) just before a
final newline. -/
def captureLazy : List Char → List Char
  | [] => []
  | ['\n'] => []
  | c :: rest => if c = '[' then [] else c :: captureLazy rest

/-- Models `re.search(r'<header>(.*?)(?=\[|$)', content, re.DOTALL)`: the
captured body of the first occurrence of a section header. -/
def findSection (header content : String) : Option String :=
  (afterFirst header.data content.data).map (fun rest => (⟨captureLazy rest⟩ : String))

/-- Digit class `\d` (ASCII). -/
def isDigitCh (c : Char) : Bool := 48 ≤ c.toNat ∧ c.toNat ≤ 57

/-- Match of `key\s*=\s*(\d+)` (IGNORECASE) at the head of `cs`: returns the
captured digit run and the rest of the text after the whole match. -/
def keyNumAt (key : List Char) (cs : List Char) : Option (List Char × List Char) :=
  match dropLitCI key cs with
  | none => none
  | some r1 =>
    match r1.dropWhile pyWhitespace with
    | '=' :: r3 =>
      let r4 := r3.dropWhile pyWhitespace
      let ds := r4.takeWhile isDigitCh
      if ds = [] then none else some (ds, r4.dropWhile isDigitCh)
    | _ => none

/-- Fuel-based leftmost search for `key\s*=\s*(\d+)` (IGNORECASE). -/
def searchKeyNumAux (key : List Char) : Nat → List Char → Option (List Char)
  | 0, _ => none
  | fuel + 1, cs =>
    match keyNumAt key cs with
    | some (ds, _) => some ds
    | none =>
      match cs with
      | [] => none
      | _ :: rest => searchKeyNumAux key fuel rest

/-- Models `re.search(r'<key>\s*=\s*(\d+)', s, re.IGNORECASE)`. -/
def searchKeyNum (key s : String) : Option String :=
  (searchKeyNumAux key.data (s.data.length + 1) s.data).map (fun ds => (⟨ds⟩ : String))

/-- Fuel-based scan for all non-overlapping matches of `key\s*=\s*(\d+)`. -/
def findAllKeyNumAux (key : List Char) : Nat → List Char → List (List Char)
  | 0, _ => []
  | fuel + 1, cs =>
    match keyNumAt key cs with
    | some (ds, rest) => ds :: findAllKeyNumAux key fuel rest
    | none =>
      match cs with
      | [] => []
      | _ :: rest => findAllKeyNumAux key fuel rest

/-- Models `re.findall(r'<key>\s*=\s*(\d+)', s, re.IGNORECASE)`. -/
def findAllKeyNum (key s : String) : List String :=
  (findAllKeyNumAux key.data (s.data.length + 1) s.data).map (fun ds => (⟨ds⟩ : String))

/-- Fuel-based leftmost search for `<key>(.*)` (case-sensitive): `.` does not
cross a newline, and the greedy capture runs to the end of the line. -/
def searchKeyLineAux (key : List Char) : Nat → List Char → Option (List Char)
  | 0, _ => none
  | fuel + 1, cs =>
    match dropLit key cs with
    | some rest => some (rest.takeWhile (fun c => c ≠ '\n'))
    | none =>
      match cs with
      | [] => none
      | _ :: rest => searchKeyLineAux key fuel rest

/-- Models `re.search(r'<key>(.*)', s)` returning the captured rest of line. -/
def searchKeyLine (key s : String) : Option String :=
  (searchKeyLineAux key.data (s.data.length + 1) s.data).map (fun cs => (⟨cs⟩ : String))

/-- Lowercase hex class `[0-9a-f]` used by the MAC regex. -/
def isHexLowerCh (c : Char) : Bool :=
  (48 ≤ c.toNat ∧ c.toNat ≤ 57) || (97 ≤ c.toNat ∧ c.toNat ≤ 102)

/-- Consumes `n` repetitions of `[0-9a-f][0-9a-f]:` from the head of `cs`. -/
def octetsColon : Nat → List Char → Option (List Char)
  | 0, cs => some cs
  | n + 1, cs =>
    match cs with
    | c1 :: c2 :: c3 :: rest =>
      if c3 = ':' ∧ isHexLowerCh c1 ∧ isHexLowerCh c2 then octetsColon n rest else none
    | _ => none

/-- The final-octet-then-`$` part of the MAC pattern: Python `$` matches at the
end or just before one final newline. -/
def macTailMatch : List Char → Bool
  | [c1, c2] => isHexLowerCh c1 && isHexLowerCh c2
  | [c1, c2, c3] => if c3 = '\n' then isHexLowerCh c1 && isHexLowerCh c2 else false
  | _ => false

/-- Models `re.match` of the anchored MAC pattern (five `hexhex:` groups and a
final octet, then `$`). -/
def macRegexMatch (cs : List Char) : Bool :=
  match octetsColon 5 cs with
  | some rest => macTailMatch rest
  | none => false

/-- Embeds `get_interface_mac` (src/config-switch-int.py lines 7-18). The
outcome of reading `/sys/class/net/<iface>/address` is passed in as
`readResult` (`none` models `FileNotFoundError`/`PermissionError`). -/
def get_interface_mac (readResult : Option String) : Option String :=
  match readResult with
  | none => none
  | some raw =>
    let mac_address := pyStrip raw
    if macRegexMatch (pyLower mac_address).data then some mac_address else none

/-- Hexadecimal digits, both cases: the alphabet of the spec-side MAC shape. -/
def hexCIChars : List Char := "0123456789abcdefABCDEF".data

/-- Case-insensitive hex digit (spec side). -/
def isHexCI (c : Char) : Bool := hexCIChars.contains c

/-- Spec-side shape: `n + 1` case-insensitive two-hex-digit octets separated
by colons. -/
def octetsShapeCI : Nat → List Char → Bool
  | 0, cs =>
    match cs with
    | [c1, c2] => isHexCI c1 && isHexCI c2
    | _ => false
  | n + 1, cs =>
    match cs with
    | c1 :: c2 :: c3 :: rest =>
      if c3 = ':' then isHexCI c1 && isHexCI c2 && octetsShapeCI n rest else false
    | _ => false

/-- Spec-side MAC shape: six colon-separated two-digit hexadecimal octets,
case-insensitive. -/
def macShapeCI (s : String) : Bool := octetsShapeCI 5 s.data

/-- The configuration record built by `load_existing_config` and `main`
(src/config-switch-int.py lines 22-30): Python `None` becomes `none`. -/
structure InterfaceConfig where
  interface_name : Option String
  mac_address : Option String
  bridge : Option String
  pvid : Option String
  egress_vlan : Option String
  vlans : List String
  link_alias : Option String
deriving DecidableEq, Repr

/-- Models Python `list(set(a + b))` (src lines 96 and 105) up to the
unspecified iteration order of a Python set: the result holds exactly the
members of `a ++ b`, each once. -/
def pySetUnion (a b : List String) : List String := (a ++ b).dedup

/-- The `[BridgeVLAN]` / `[Bridge]` VLAN extraction of `load_existing_config`
(src/config-switch-int.py lines 83-105), step by step:
line 88 stores the `[BridgeVLAN]` entries, line 96 set-merges the `[Bridge]`
entries, and lines 99-105 re-run the `[BridgeVLAN]` scan and set-merge it
again whenever the literal `[BridgeVLAN]` occurs in the text. -/
def loadNetworkVlans (content : String) : List String :=
  let v1 :=
    match findSection "[BridgeVLAN]" content with
    | some sect => findAllKeyNum "VLAN" sect
    | none => []
  let v2 :=
    match findSection "[Bridge]" content with
    | some sect => pySetUnion v1 (findAllKeyNum "VLAN" sect)
    | none => v1
  if occursIn "[BridgeVLAN]" content then
    match findSection "[BridgeVLAN]" content with
    | some sect => pySetUnion v2 (findAllKeyNum "VLAN" sect)
    | none => v2
  else v2

/-- Embeds `load_existing_config` (src/config-switch-int.py lines 20-120).
`sysMacRead` is the raw read of the sysfs address file; `linkContent` and
`networkContent` are the texts of `00-<iface>.link` / `20-<iface>.network`
(`none` models a missing file or a swallowed read error). -/
def load_existing_config (interface_name : String) (sysMacRead : Option String)
    (linkContent : Option String) (networkContent : Option String) : InterfaceConfig :=
  let mac0 := get_interface_mac sysMacRead
  let mac1 :=
    match linkContent with
    | some content =>
      match findSection "[Match]" content with
      | some sect =>
        match searchKeyLine "MACAddress=" sect with
        | some v => some (pyStrip v)
        | none => mac0
      | none => mac0
    | none => mac0
  let alias1 :=
    match linkContent with
    | some content =>
      match findSection "[Link]" content with
      | some sect => (searchKeyLine "Alias=" sect).map pyStrip
      | none => none
    | none => none
  match networkContent with
  | none =>
    { interface_name := some interface_name, mac_address := mac1, bridge := none,
      pvid := none, egress_vlan := none, vlans := [], link_alias := alias1 }
  | some content =>
    let bridge :=
      match findSection "[Network]" content with
      | some sect => (searchKeyLine "Bridge=" sect).map pyStrip
      | none => none
    let pvidScoped :=
      match findSection "[VLAN]" content with
      | some sect => searchKeyNum "PVID" sect
      | none => none
    let vlans := loadNetworkVlans content
    let pvid :=
      match searchKeyNum "PVID" content with
      | some d => some d
      | none => pvidScoped
    let egress := searchKeyNum "EgressUntagged" content
    { interface_name := some interface_name, mac_address := mac1, bridge := bridge,
      pvid := pvid, egress_vlan := egress, vlans := vlans, link_alias := alias1 }

/-- Embeds `generate_link_content` (src/config-switch-int.py lines 122-134). -/
def generate_link_content (interface_name : String)
    (mac_address link_alias : Option String) : String :=
  let mac_part : String :=
    match mac_address with
    | some m => if m ≠ "" then "MACAddress=" ++ m ++ "\n" else ""
    | none => ""
  let alias_part : String :=
    match link_alias with
    | some a => if a ≠ "" then "Alias=" ++ a ++ "\n" else ""
    | none => ""
  "[Match]\nName=" ++ interface_name ++ "\n" ++ mac_part ++ "\n[Link]\n" ++ alias_part

/-- Embeds `generate_network_content` (src/config-switch-int.py lines 136-157). -/
def generate_network_content (interface_name : String)
    (bridge pvid egress_vlan : Option String) (vlans : List String) : String :=
  let bridge_part : String :=
    match bridge with
    | some b => if b ≠ "" then "Bridge=" ++ b ++ "\n" else ""
    | none => ""
  let vlan_lines : String := String.join (vlans.map (fun vlan => "VLAN=" ++ vlan ++ "\n"))
  let pvid_part : String :=
    match pvid with
    | some p => if p ≠ "" ∧ pyLower p ≠ "none" then "PVID=" ++ p ++ "\n" else ""
    | none => ""
  let egress_part : String :=
    match egress_vlan with
    | some e => if e ≠ "" ∧ pyLower e ≠ "none" then "EgressUntagged=" ++ e ++ "\n" else ""
    | none => ""
  "[Match]\nName=" ++ interface_name ++ "\n\n[Network]\n" ++ bridge_part
    ++ "\n[BridgeVLAN]\n" ++ (vlan_lines ++ pvid_part ++ egress_part)

/-- Embeds `generate_iproute2_commands` (src/config-switch-int.py lines
159-177); `bridge` is accepted and unused exactly as in the source. -/
def generate_iproute2_commands (interface_name : String)
    (bridge pvid egress_vlan : Option String) (vlans : List String) : List String :=
  let commands : List String :=
    vlans.foldl (fun acc vlan =>
      if some vlan ≠ pvid then
        acc ++ ["bridge vlan add vid " ++ vlan ++ " dev " ++ interface_name]
      else acc) []
  let commands :=
    match pvid with
    | some p =>
      if p ≠ "" then
        commands ++ ["bridge vlan add vid " ++ p ++ " dev " ++ interface_name ++ " pvid untagged"]
      else commands
    | none => commands
  match egress_vlan with
  | some e =>
    if e ≠ "" ∧ some e ≠ pvid then
      commands ++ ["bridge vlan add vid " ++ e ++ " dev " ++ interface_name]
    else commands
  | none => commands

/-- The plain tagged-VLAN command text built at src lines 167 and 175. -/
def plainAddCmd (interface_name vlan : String) : String :=
  "bridge vlan add vid " ++ vlan ++ " dev " ++ interface_name

/-- The pvid-untagged command appended at src line 171 when `pvid` is truthy. -/
def pvidCmdList (interface_name : String) (pvid : Option String) : List String :=
  match pvid with
  | some p =>
    if p ≠ "" then
      ["bridge vlan add vid " ++ p ++ " dev " ++ interface_name ++ " pvid untagged"]
    else []
  | none => []

/-- The egress command appended at src line 175 when `egress_vlan` is truthy
and differs from `pvid`. -/
def egressCmdList (interface_name : String) (pvid egress_vlan : Option String) : List String :=
  match egress_vlan with
  | some e => if e ≠ "" ∧ some e ≠ pvid then [plainAddCmd interface_name e] else []
  | none => []

/-- The parsed command line (src/config-switch-int.py lines 201-211): every
value flag defaults to `None`; `interactive` is a boolean store-true flag.
The source's `args.alias` is named `alias_arg` because `alias` is taken by a
library command. -/
structure Args where
  interactive : Bool
  interface : Option String
  mac : Option String
  alias_arg : Option String
  bridge : Option String
  pvid : Option String
  egress : Option String
  vlans : Option String
deriving DecidableEq, Repr

/-- The mode test at src line 214: interactive when `--interactive` is set or
every value flag is falsy (absent or empty). -/
def interactiveSelected (a : Args) : Bool :=
  a.interactive ||
    (!truthy a.interface && !truthy a.mac && !truthy a.alias_arg && !truthy a.bridge &&
      !truthy a.pvid && !truthy a.egress && !truthy a.vlans)

/-- The flag-mode config built at src lines 241-249, straight from the flags. -/
def flagConfig (a : Args) : InterfaceConfig :=
  { interface_name := a.interface
    mac_address := a.mac
    link_alias := a.alias_arg
    bridge := a.bridge
    pvid := a.pvid
    egress_vlan := a.egress
    vlans :=
      match a.vlans with
      | some v => if v ≠ "" then pySplitComma v else []
      | none => [] }

/-- Raw console answers to the six interactive field prompts
(src lines 231-237), in prompt order. -/
structure Answers where
  mac : String
  alias_ans : String
  bridge : String
  pvid : String
  egress : String
  vlans : String
deriving DecidableEq, Repr

/-- The per-field override step of interactive mode (src lines 231-237):
`input(...).strip() or config[...]` keeps the current value on an empty
stripped answer and replaces it outright otherwise; a non-empty VLAN answer
replaces the set by splitting on commas. -/
def interactiveMerge (config : InterfaceConfig) (a : Answers) : InterfaceConfig :=
  let macI := pyStrip a.mac
  let aliasI := pyStrip a.alias_ans
  let bridgeI := pyStrip a.bridge
  let pvidI := pyStrip a.pvid
  let egressI := pyStrip a.egress
  let vlansI := pyStrip a.vlans
  { config with
    mac_address := if macI = "" then config.mac_address else some macI
    link_alias := if aliasI = "" then config.link_alias else some aliasI
    bridge := if bridgeI = "" then config.bridge else some bridgeI
    pvid := if pvidI = "" then config.pvid else some pvidI
    egress_vlan := if egressI = "" then config.egress_vlan else some egressI
    vlans := if vlansI = "" then config.vlans else pySplitComma vlansI }

/-- The interactive branch of `main` (src lines 215-237): reads and strips the
interface name (empty is a fatal error, modelled as `none`), loads the
existing config, re-stores the interface name, and applies the prompts. -/
def interactiveConfig (ifaceAnswer : String) (sysMacRead linkContent networkContent : Option String)
    (a : Answers) : Option InterfaceConfig :=
  let interface_name := pyStrip ifaceAnswer
  if interface_name = "" then none
  else
    let config := load_existing_config interface_name sysMacRead linkContent networkContent
    let config := { config with interface_name := some interface_name }
    some (interactiveMerge config a)

/-- The config-construction part of `main` (src lines 214-254), up to and
including the required-interface validation at line 252: `none` models the
early error return. -/
def mainConfig (a : Args) (ifaceAnswer : String) (ans : Answers)
    (sysMacRead linkContent networkContent : Option String) : Option InterfaceConfig :=
  let config? :=
    if interactiveSelected a then
      interactiveConfig ifaceAnswer sysMacRead linkContent networkContent ans
    else some (flagConfig a)
  match config? with
  | none => none
  | some config => if truthy config.interface_name then some config else none

/-- The confirmation test at src lines 294-295:
`input(...).strip().lower() == 'y'`. -/
def confirmProceeds (s : String) : Bool := pyLower (pyStrip s) = "y"

/-- The `.link` path written at src line 301. -/
def linkFilename (interface_name : String) : String :=
  "/etc/systemd/network/00-" ++ interface_name ++ ".link"

/-- The `.network` path written at src line 306. -/
def networkFilename (interface_name : String) : String :=
  "/etc/systemd/network/20-" ++ interface_name ++ ".network"

/-- The write phase of `main` (src lines 294-317) as the list of
(path, content) filesystem writes it performs. -/
def shellWriteActions (interface_name link_content network_content : String)
    (confirm : String) : List (String × String) :=
  if confirmProceeds confirm then
    [(linkFilename interface_name, link_content),
     (networkFilename interface_name, network_content)]
  else []

/-- The final report of `main`: the two paths on confirmation, otherwise the
"Files not written." message (src lines 310-317). -/
def shellReport (interface_name : String) (confirm : String) : List String :=
  if confirmProceeds confirm then
    ["Files written successfully:", linkFilename interface_name, networkFilename interface_name]
  else ["Files not written."]

theorem toNat_ofNat_valid (n : Nat) (h : n < 55296) : (Char.ofNat n).toNat = n := by
  have hv : n.isValidChar := Or.inl h
  simp only [Char.ofNat, hv, dif_pos]
  rfl

theorem char_toNat_inj {c d : Char} (h : c.toNat = d.toNat) : c = d :=
  Char.eq_of_val_eq (UInt32.ext h)

theorem lowerChar_toNat (c : Char) :
    (lowerChar c).toNat = if 65 ≤ c.toNat ∧ c.toNat ≤ 90 then c.toNat + 32 else c.toNat := by
  by_cases h : 65 ≤ c.toNat ∧ c.toNat ≤ 90
  · unfold lowerChar
    rw [if_pos h, if_pos h]
    exact toNat_ofNat_valid _ (by omega)
  · unfold lowerChar
    rw [if_neg h, if_neg h]

/-- Lowercasing can only produce a character outside both the lowercase range
and the uppercase range from that very character. -/
theorem lowerChar_fix_iff {c d : Char} (hd1 : ¬ (97 ≤ d.toNat ∧ d.toNat ≤ 122))
    (hd2 : ¬ (65 ≤ d.toNat ∧ d.toNat ≤ 90)) : lowerChar c = d ↔ c = d := by
  have ht := lowerChar_toNat c
  constructor
  · intro h
    rw [h] at ht
    by_cases hr : 65 ≤ c.toNat ∧ c.toNat ≤ 90
    · rw [if_pos hr] at ht
      exact absurd ⟨by omega, by omega⟩ hd1
    · rw [if_neg hr] at ht
      exact char_toNat_inj ht.symm
  · rintro rfl
    apply char_toNat_inj
    rw [ht, if_neg hd2]

theorem isHexLowerCh_iff (c : Char) :
    isHexLowerCh c = true ↔ (48 ≤ c.toNat ∧ c.toNat ≤ 57) ∨ (97 ≤ c.toNat ∧ c.toNat ≤ 102) := by
  simp [isHexLowerCh]

theorem isHexCI_iff (c : Char) :
    isHexCI c = true ↔
      (48 ≤ c.toNat ∧ c.toNat ≤ 57) ∨ (97 ≤ c.toNat ∧ c.toNat ≤ 102) ∨
        (65 ≤ c.toNat ∧ c.toNat ≤ 70) := by
  constructor
  · intro h
    have hm : c ∈ hexCIChars := by simpa [isHexCI] using h
    unfold hexCIChars at hm
    fin_cases hm <;> decide
  · intro h
    have hc : c = Char.ofNat c.toNat := (Char.ofNat_toNat c).symm
    rw [hc]
    have h48 : 48 ≤ c.toNat := by omega
    have h102 : c.toNat ≤ 102 := by omega
    generalize c.toNat = t at h h48 h102
    interval_cases t <;> first | decide | (exfalso; omega)

theorem isHexLowerCh_lowerChar (c : Char) : isHexLowerCh (lowerChar c) = isHexCI c := by
  rw [Bool.eq_iff_iff, isHexLowerCh_iff, isHexCI_iff, lowerChar_toNat]
  by_cases hr : 65 ≤ c.toNat ∧ c.toNat ≤ 90
  · rw [if_pos hr]
    omega
  · rw [if_neg hr]
    omega

theorem octetsColon_succ_cons (n : Nat) (c1 c2 c3 : Char) (rest : List Char) :
    octetsColon (n + 1) (c1 :: c2 :: c3 :: rest) =
      if c3 = ':' ∧ isHexLowerCh c1 ∧ isHexLowerCh c2 then octetsColon n rest else none := rfl

theorem octetsShapeCI_succ_cons (n : Nat) (c1 c2 c3 : Char) (rest : List Char) :
    octetsShapeCI (n + 1) (c1 :: c2 :: c3 :: rest) =
      if c3 = ':' then isHexCI c1 && isHexCI c2 && octetsShapeCI n rest else false := rfl

/-- Running the lowercase-only MAC octet matcher on the lowercased text is the
same as the case-insensitive shape test on the original text, as long as the
text does not end in a newline. -/
theorem octets_lower_shape : ∀ (n : Nat) (cs : List Char), cs.getLast? ≠ some '\n' →
    ((octetsColon n (cs.map lowerChar)).map macTailMatch).getD false = octetsShapeCI n cs := by
  intro n
  induction n with
  | zero =>
    intro cs h
    match cs with
    | [] => rfl
    | [d1] => rfl
    | [d1, d2] =>
      show (isHexLowerCh (lowerChar d1) && isHexLowerCh (lowerChar d2)) = (isHexCI d1 && isHexCI d2)
      rw [isHexLowerCh_lowerChar, isHexLowerCh_lowerChar]
    | [d1, d2, d3] =>
      have hd3 : ¬ (d3 = '\n') := by simpa using h
      have hl3 : ¬ (lowerChar d3 = '\n') := fun he =>
        hd3 ((lowerChar_fix_iff (by decide) (by decide)).mp he)
      show (if lowerChar d3 = '\n'
            then isHexLowerCh (lowerChar d1) && isHexLowerCh (lowerChar d2) else false) =
          octetsShapeCI 0 [d1, d2, d3]
      rw [if_neg hl3]
      rfl
    | d1 :: d2 :: d3 :: d4 :: rest => rfl
  | succ n ih =>
    intro cs h
    match cs with
    | [] => rfl
    | [d1] => rfl
    | [d1, d2] => rfl
    | d1 :: d2 :: d3 :: rest =>
      rw [show (d1 :: d2 :: d3 :: rest).map lowerChar =
            lowerChar d1 :: lowerChar d2 :: lowerChar d3 :: rest.map lowerChar from rfl,
          octetsColon_succ_cons, octetsShapeCI_succ_cons]
      by_cases h3 : d3 = ':'
      · have hl3 : lowerChar d3 = ':' := by
          rw [lowerChar_fix_iff (by decide) (by decide)]
          exact h3
        by_cases hx1 : isHexLowerCh (lowerChar d1) = true
        · by_cases hx2 : isHexLowerCh (lowerChar d2) = true
          · rw [if_pos ⟨hl3, hx1, hx2⟩, if_pos h3]
            have hrest : rest.getLast? ≠ some '\n' := by
              cases rest with
              | nil => simp
              | cons a t =>
                intro hc
                apply h
                rw [List.getLast?_cons_cons, List.getLast?_cons_cons]
                exact hc
            rw [ih rest hrest]
            have e1 : isHexCI d1 = true := by rw [← isHexLowerCh_lowerChar]; exact hx1
            have e2 : isHexCI d2 = true := by rw [← isHexLowerCh_lowerChar]; exact hx2
            rw [e1, e2]
            simp
          · rw [if_neg (fun hc => hx2 hc.2.2), if_pos h3]
            have e2 : isHexCI d2 = false := by
              rw [← isHexLowerCh_lowerChar]
              simpa using hx2
            simp [e2]
        · rw [if_neg (fun hc => hx1 hc.2.1), if_pos h3]
          have e1 : isHexCI d1 = false := by
            rw [← isHexLowerCh_lowerChar]
            simpa using hx1
          simp [e1]
      · rw [if_neg (fun hc => h3 ((lowerChar_fix_iff (by decide) (by decide)).mp hc.1)),
            if_neg h3]
        rfl

theorem macRegexMatch_eq_getD (cs : List Char) :
    macRegexMatch cs = ((octetsColon 5 cs).map macTailMatch).getD false := by
  unfold macRegexMatch
  rcases h : octetsColon 5 cs with _ | rest <;> simp [h]

theorem head?_dropWhile_false {α : Type} (p : α → Bool) :
    ∀ (l : List α) (c : α), (l.dropWhile p).head? = some c → p c = false := by
  intro l
  induction l with
  | nil =>
    intro c h
    simp at h
  | cons a t ih =>
    intro c h
    rw [List.dropWhile_cons] at h
    by_cases hp : p a = true
    · rw [if_pos hp] at h
      exact ih c h
    · rw [if_neg hp] at h
      simp at h
      rw [← h]
      simpa using hp

/-- A stripped string never ends in a newline. -/
theorem pyStrip_getLast?_ne_newline (s : String) : (pyStrip s).data.getLast? ≠ some '\n' := by
  intro h
  have hd : (pyStrip s).data = pyStripList s.data := rfl
  rw [hd] at h
  unfold pyStripList at h
  rw [List.getLast?_reverse] at h
  have hw := head?_dropWhile_false pyWhitespace _ _ h
  simp [pyWhitespace] at hw

/-- The MAC regex applied to the lowercased stripped text is the spec-side
case-insensitive shape test on the stripped text. -/
theorem macRegexMatch_pyLower_pyStrip (s : String) :
    macRegexMatch (pyLower (pyStrip s)).data = macShapeCI (pyStrip s) := by
  have hd : (pyLower (pyStrip s)).data = (pyStrip s).data.map lowerChar := rfl
  rw [macRegexMatch_eq_getD, hd]
  exact octets_lower_shape 5 (pyStrip s).data (pyStrip_getLast?_ne_newline s)

/-- Claim C6: the MAC resolver never raises (it is a total function of the
read outcome); it returns the read string (as stripped by the code) exactly
when the read succeeds and that string is six colon-separated two-digit
hexadecimal octets, case-insensitive; every other string yields absent, and a
failed read (`none`, covering both a missing interface and a permission
error) yields absent. -/
theorem mac_resolver_correct :
    get_interface_mac none = none ∧
    ∀ (raw m : String),
      get_interface_mac (some raw) = some m ↔ (m = pyStrip raw ∧ macShapeCI m = true) := by
  refine ⟨rfl, fun raw m => ?_⟩
  have hkey := macRegexMatch_pyLower_pyStrip raw
  simp only [get_interface_mac]
  rw [hkey]
  by_cases hc : macShapeCI (pyStrip raw) = true
  · rw [if_pos hc]
    constructor
    · intro h
      have hm : m = pyStrip raw := by
        injection h with h2
        exact h2.symm
      refine ⟨hm, ?_⟩
      rw [hm]
      exact hc
    · rintro ⟨rfl, _⟩
      rfl
  · rw [if_neg hc]
    constructor
    · intro h
      exact absurd h (by simp)
    · rintro ⟨rfl, hs⟩
      exact absurd hs hc

theorem foldl_filter_append {α β : Type} (q : α → Prop) [DecidablePred q] (f : α → β) :
    ∀ (v : List α) (acc : List β),
      v.foldl (fun acc x => if q x then acc ++ [f x] else acc) acc =
        acc ++ (v.filter (fun x => decide (q x))).map f := by
  intro v
  induction v with
  | nil =>
    intro acc
    simp
  | cons x xs ih =>
    intro acc
    by_cases h : q x
    · simp [h, ih, List.filter_cons]
    · simp [h, ih, List.filter_cons]

/-- Claim C1: the command generator emits, in order, one plain
`bridge vlan add vid <id> dev <iface>` per VLAN entry different from the PVID,
then one pvid-untagged command when the PVID is truthy, then one plain add for
a truthy egress VLAN different from the PVID; on the flag-mode input
`--interface eth0 --vlans 10,20,30 --pvid 10 --egress 30` the plain add for
VLAN 20 comes first, later the pvid-untagged command for 10, and last the
plain add for egress 30. -/
theorem iproute2_commands_structure :
    (∀ (i : String) (b p e : Option String) (v : List String),
        generate_iproute2_commands i b p e v =
          (v.filter (fun vlan => some vlan ≠ p)).map (plainAddCmd i)
            ++ pvidCmdList i p ++ egressCmdList i p e) ∧
    generate_iproute2_commands "eth0" none (some "10") (some "30") ["10", "20", "30"] =
      ["bridge vlan add vid 20 dev eth0",
       "bridge vlan add vid 30 dev eth0",
       "bridge vlan add vid 10 dev eth0 pvid untagged",
       "bridge vlan add vid 30 dev eth0"] := by
  constructor
  · intro i b p e v
    show (let commands := v.foldl (fun acc vlan =>
            if some vlan ≠ p then acc ++ ["bridge vlan add vid " ++ vlan ++ " dev " ++ i]
            else acc) [];
          let commands :=
            match p with
            | some pp =>
              if pp ≠ "" then
                commands ++ ["bridge vlan add vid " ++ pp ++ " dev " ++ i ++ " pvid untagged"]
              else commands
            | none => commands
          match e with
          | some ee =>
            if ee ≠ "" ∧ some ee ≠ p then
              commands ++ ["bridge vlan add vid " ++ ee ++ " dev " ++ i]
            else commands
          | none => commands) = _
    rw [foldl_filter_append (fun vlan => some vlan ≠ p)
      (fun vlan => "bridge vlan add vid " ++ vlan ++ " dev " ++ i) v []]
    show _ = (v.filter (fun vlan => some vlan ≠ p)).map (plainAddCmd i)
          ++ pvidCmdList i p ++ egressCmdList i p e
    have hmap : (fun vlan => "bridge vlan add vid " ++ vlan ++ " dev " ++ i) = plainAddCmd i := rfl
    rw [hmap]
    rcases p with _ | pp <;> rcases e with _ | ee <;>
      simp only [pvidCmdList, egressCmdList, List.nil_append, List.append_nil] <;>
      split_ifs <;>
      simp [plainAddCmd, List.append_assoc]
  · rfl

/-- Claim C2 counterexample: with pvid equal to the literal "none" the command
generator still emits a pvid-untagged command (the same call with pvid absent
emits nothing), so pvid="none" is not treated as absent by both generators. -/
theorem iproute2_pvid_none_cex :
    generate_iproute2_commands "eth0" none (some "none") none [] =
      ["bridge vlan add vid none dev eth0 pvid untagged"] ∧
    generate_iproute2_commands "eth0" none none none [] = [] :=
  ⟨rfl, rfl⟩

/-- Claim C2 (amended): the network-content generator treats a pvid or egress
value equal to the case-insensitive literal "none" as absent — the output
equals the output with that field absent, so no PVID= or EgressUntagged= line
appears, and in particular bridge="br0" with pvid="none" yields content with
no PVID= occurrence; the command generator applies no such treatment (see the
counterexample). -/
theorem network_content_none_absent :
    (∀ (i : String) (b e : Option String) (v : List String) (p : String),
        pyLower p = "none" →
        generate_network_content i b (some p) e v = generate_network_content i b none e v) ∧
    (∀ (i : String) (b pv : Option String) (v : List String) (e : String),
        pyLower e = "none" →
        generate_network_content i b pv (some e) v = generate_network_content i b pv none v) ∧
    occursIn "PVID=" (generate_network_content "eth0" (some "br0") (some "none") none []) =
      false := by
  refine ⟨?_, ?_, by decide⟩
  · intro i b e v p h
    have hp : (if p ≠ "" ∧ pyLower p ≠ "none" then "PVID=" ++ p ++ "\n" else "") = "" := by
      rw [if_neg]
      rintro ⟨_, h2⟩
      exact h2 h
    simp only [generate_network_content, hp]
  · intro i b pv v e h
    have he : (if e ≠ "" ∧ pyLower e ≠ "none" then "EgressUntagged=" ++ e ++ "\n" else "") = "" := by
      rw [if_neg]
      rintro ⟨_, h2⟩
      exact h2 h
    simp only [generate_network_content, he]

theorem network_content_none_absent_witness :
    pyLower "None" = "none" ∧
    generate_network_content "eth0" (some "br0") (some "None") none [] =
      generate_network_content "eth0" (some "br0") none none [] :=
  ⟨by decide, network_content_none_absent.1 "eth0" (some "br0") none [] "None" (by decide)⟩

/-- Claim C10: the generated network content always contains the Match header
with the interface name, then the Network header, then the BridgeVLAN header,
in that order, even when bridge, pvid and egress are absent and the VLAN list
is empty (empty sections still get their headers). -/
theorem network_content_headers :
    (∀ (i : String) (b p e : Option String) (v : List String),
        ∃ s1 s2 : String,
          generate_network_content i b p e v =
            "[Match]\nName=" ++ i ++ "\n\n[Network]\n" ++ s1 ++ "\n[BridgeVLAN]\n" ++ s2) ∧
    generate_network_content "eth0" none none none [] =
      "[Match]\nName=eth0\n\n[Network]\n\n[BridgeVLAN]\n" := by
  refine ⟨fun i b p e v => ⟨_, _, rfl⟩, rfl⟩

/-- Claim C8 counterexample: the confirmation input "y " (with a trailing
blank) differs from both "y" and "Y", yet the shell strips it and performs
both writes — so it is not true that every input other than exactly "y"/"Y"
yields zero writes. -/
theorem shell_confirm_cex :
    ("y " ≠ "y" ∧ "y " ≠ "Y") ∧
    shellWriteActions "eth0" "L" "N" "y " =
      [("/etc/systemd/network/00-eth0.link", "L"),
       ("/etc/systemd/network/20-eth0.network", "N")] :=
  ⟨⟨by decide, by decide⟩, by decide⟩

/-- Claim C8 (amended): files are written exactly when the confirmation
input, stripped of surrounding whitespace and lowercased, equals "y"; every
other input produces zero filesystem writes and the "Files not written."
report, and a confirming input writes exactly the two target paths and
reports them. -/
theorem shell_write_gating :
    ∀ (iface l n s : String),
      (confirmProceeds s = false →
        shellWriteActions iface l n s = [] ∧ shellReport iface s = ["Files not written."]) ∧
      (confirmProceeds s = true →
        shellWriteActions iface l n s =
            [(linkFilename iface, l), (networkFilename iface, n)] ∧
          shellReport iface s =
            ["Files written successfully:", linkFilename iface, networkFilename iface]) ∧
      (confirmProceeds s = true ↔ pyLower (pyStrip s) = "y") := by
  intro iface l n s
  refine ⟨fun h => ?_, fun h => ?_, ?_⟩
  · constructor <;> simp [shellWriteActions, shellReport, h]
  · constructor <;> simp [shellWriteActions, shellReport, h]
  · simp [confirmProceeds]

theorem shell_write_gating_witness :
    shellWriteActions "eth0" "L" "N" " no " = [] ∧
    shellReport "eth0" " no " = ["Files not written."] :=
  (shell_write_gating "eth0" "L" "N" " no ").1 (by decide)

/-- Flag-mode arguments with a duplicated VLAN id. -/
def dupVlanArgs : Args := ⟨false, some "eth0", none, none, none, none, none, some "10,10"⟩

/-- Claim C3 counterexample: with flags `--interface eth0 --vlans 10,10` the
run is in flag mode, passes validation and reaches generation, yet the
configuration's vlans list is the raw comma split and holds a duplicate. -/
theorem flag_vlans_dup_cex :
    interactiveSelected dupVlanArgs = false ∧
    mainConfig dupVlanArgs "" ⟨"", "", "", "", "", ""⟩ none none none =
      some (flagConfig dupVlanArgs) ∧
    (flagConfig dupVlanArgs).vlans = ["10", "10"] ∧
    ¬ (flagConfig dupVlanArgs).vlans.Nodup :=
  ⟨by decide, by decide, by decide, by decide⟩

theorem occursIn_eq_isSome (pat s : String) : occursIn pat s = (findSection pat s).isSome := by
  unfold occursIn findSection
  rcases afterFirst pat.data s.data with _ | r <;> rfl

/-- Claim C3 (amended): configurations built by the loader always carry a
duplicate-free vlans list (every populated branch of the section merge ends
in a set union); the flag-mode and interactive paths hand the raw comma
split through unchanged, so their vlans lists may contain duplicates (see
the counterexample). -/
theorem loader_vlans_nodup :
    ∀ (name : String) (sysMac linkC netC : Option String),
      (load_existing_config name sysMac linkC netC).vlans.Nodup := by
  intro name sysMac linkC netC
  rcases netC with _ | content
  · exact List.nodup_nil
  · show (loadNetworkVlans content).Nodup
    unfold loadNetworkVlans
    rcases h1 : findSection "[BridgeVLAN]" content with _ | s1
    · have hocc : occursIn "[BridgeVLAN]" content = false := by
        rw [occursIn_eq_isSome, h1]
        rfl
      simp only [h1, hocc, Bool.false_eq_true, if_false]
      rcases h2 : findSection "[Bridge]" content with _ | s2 <;> simp only [h2, pySetUnion]
      · exact List.nodup_nil
      · exact List.nodup_dedup _
    · have hocc : occursIn "[BridgeVLAN]" content = true := by
        rw [occursIn_eq_isSome, h1]
        rfl
      simp only [h1, hocc, if_true]
      rcases h2 : findSection "[Bridge]" content with _ | s2 <;>
        simp only [h2, pySetUnion] <;>
        exact List.nodup_dedup _

/-- Claim C9: interactive mode is selected exactly when `--interactive` is
set or no value-bearing flag carries a (non-empty) value; otherwise flag mode
is used, every configuration field is taken directly from the flags, and the
construction consults neither the sysfs MAC read nor any pre-existing file,
so two runs with the same flags build the same configuration whatever those
files hold. -/
theorem mode_selection_and_flag_determinism :
    (∀ a : Args, interactiveSelected a = true ↔
        (a.interactive = true ∨
          (truthy a.interface = false ∧ truthy a.mac = false ∧ truthy a.alias_arg = false ∧
            truthy a.bridge = false ∧ truthy a.pvid = false ∧ truthy a.egress = false ∧
            truthy a.vlans = false))) ∧
    (∀ (a : Args) (ifA1 ifA2 : String) (ans1 ans2 : Answers)
        (sm1 sm2 lc1 lc2 nc1 nc2 : Option String),
        interactiveSelected a = false →
        mainConfig a ifA1 ans1 sm1 lc1 nc1 = mainConfig a ifA2 ans2 sm2 lc2 nc2) ∧
    (∀ (a : Args) (ifA : String) (ans : Answers) (sm lc nc : Option String),
        interactiveSelected a = false →
        mainConfig a ifA ans sm lc nc =
          if truthy a.interface then some (flagConfig a) else none) ∧
    (∀ a : Args,
        (flagConfig a).interface_name = a.interface ∧
        (flagConfig a).mac_address = a.mac ∧
        (flagConfig a).link_alias = a.alias_arg ∧
        (flagConfig a).bridge = a.bridge ∧
        (flagConfig a).pvid = a.pvid ∧
        (flagConfig a).egress_vlan = a.egress) := by
  refine ⟨?_, ?_, ?_, fun a => ⟨rfl, rfl, rfl, rfl, rfl, rfl⟩⟩
  · intro a
    simp [interactiveSelected]
    tauto
  · intro a ifA1 ifA2 ans1 ans2 sm1 sm2 lc1 lc2 nc1 nc2 h
    simp [mainConfig, h]
  · intro a ifA ans sm lc nc h
    simp [mainConfig, h]
    rfl

/-- Flag-only arguments mirroring the worked flag-mode example. -/
def flagExampleArgs : Args :=
  ⟨false, some "eth0", none, none, none, some "10", some "30", some "10,20,30"⟩

theorem mode_selection_and_flag_determinism_witness :
    interactiveSelected flagExampleArgs = false ∧
    mainConfig flagExampleArgs "x" ⟨"a", "b", "c", "d", "e", "f"⟩ (some "m") none (some "n") =
      mainConfig flagExampleArgs "y" ⟨"", "", "", "", "", ""⟩ none (some "l") none :=
  ⟨by decide,
    mode_selection_and_flag_determinism.2.1 flagExampleArgs "x" "y"
      ⟨"a", "b", "c", "d", "e", "f"⟩ ⟨"", "", "", "", "", ""⟩
      (some "m") none none (some "l") (some "n") none (by decide)⟩

/-- Claim C4: in the loader, the whole-file PVID and EgressUntagged searches
run on the full text unconditionally, after the section-scoped extraction,
and their match is what the loader returns (last-applied-regex-wins); a
`.network` file whose only PVID occurrence is `PVID=5` inside `[VLAN]` yields
pvid "5", and a file with an additional whole-file occurrence `PVID=7` ahead
of the `[VLAN]` section yields "7" even though the scoped search finds "5". -/
theorem loader_pvid_wholefile :
    (∀ (content name : String) (sysMac linkC : Option String) (d : String),
        searchKeyNum "PVID" content = some d →
        (load_existing_config name sysMac linkC (some content)).pvid = some d) ∧
    (∀ (content name : String) (sysMac linkC : Option String),
        (load_existing_config name sysMac linkC (some content)).egress_vlan =
          searchKeyNum "EgressUntagged" content) ∧
    (load_existing_config "eth0" none none (some "[VLAN]\nPVID=5\n")).pvid = some "5" ∧
    (load_existing_config "eth0" none none (some "PVID=7\n[VLAN]\nPVID=5\n")).pvid = some "7" ∧
    searchKeyNum "PVID" ((findSection "[VLAN]" "PVID=7\n[VLAN]\nPVID=5\n").getD "") =
      some "5" := by
  refine ⟨?_, ?_, by decide, by decide, by decide⟩
  · intro content name sysMac linkC d h
    simp [load_existing_config, h]
  · intro content name sysMac linkC
    simp [load_existing_config]

theorem loader_pvid_wholefile_witness :
    searchKeyNum "PVID" "[VLAN]\nPVID=5\n" = some "5" ∧
    (load_existing_config "eth0" none none (some "[VLAN]\nPVID=5\n")).pvid = some "5" :=
  ⟨by decide, loader_pvid_wholefile.1 "[VLAN]\nPVID=5\n" "eth0" none none "5" (by decide)⟩

/-- Claim C5: the VLAN ids found in the `[BridgeVLAN]` and `[Bridge]` sections
are merged by set union — the loader's vlans list holds exactly the union of
the two findall results, without duplicates — and on a file listing 10, 20 in
`[BridgeVLAN]` and 20, 30 in `[Bridge]` the loader yields the set 10, 20, 30. -/
theorem loader_vlans_union :
    (∀ (content name s1 s2 : String) (sysMac linkC : Option String),
        findSection "[BridgeVLAN]" content = some s1 →
        findSection "[Bridge]" content = some s2 →
        (load_existing_config name sysMac linkC (some content)).vlans.toFinset =
            (findAllKeyNum "VLAN" s1).toFinset ∪ (findAllKeyNum "VLAN" s2).toFinset ∧
          (load_existing_config name sysMac linkC (some content)).vlans.Nodup) ∧
    (load_existing_config "eth0" none none
        (some "[BridgeVLAN]\nVLAN=10\nVLAN=20\n[Bridge]\nVLAN=20\nVLAN=30\n")).vlans.toFinset =
      ({"10", "20", "30"} : Finset String) := by
  refine ⟨?_, by decide⟩
  intro content name s1 s2 sysMac linkC h1 h2
  have hvl : (load_existing_config name sysMac linkC (some content)).vlans =
      loadNetworkVlans content := rfl
  have hocc : occursIn "[BridgeVLAN]" content = true := by
    rw [occursIn_eq_isSome, h1]
    rfl
  rw [hvl]
  unfold loadNetworkVlans
  simp only [h1, h2, hocc, if_true, pySetUnion]
  constructor
  · ext x
    simp [List.mem_dedup, List.mem_append, Finset.mem_union]
    tauto
  · exact List.nodup_dedup _

theorem loader_vlans_union_witness :
    findSection "[BridgeVLAN]" "[BridgeVLAN]\nVLAN=10\nVLAN=20\n[Bridge]\nVLAN=20\nVLAN=30\n" =
        some "\nVLAN=10\nVLAN=20\n" ∧
    findSection "[Bridge]" "[BridgeVLAN]\nVLAN=10\nVLAN=20\n[Bridge]\nVLAN=20\nVLAN=30\n" =
        some "\nVLAN=20\nVLAN=30" ∧
    (load_existing_config "eth0" none none
        (some "[BridgeVLAN]\nVLAN=10\nVLAN=20\n[Bridge]\nVLAN=20\nVLAN=30\n")).vlans.toFinset =
      (findAllKeyNum "VLAN" "\nVLAN=10\nVLAN=20\n").toFinset ∪
        (findAllKeyNum "VLAN" "\nVLAN=20\nVLAN=30").toFinset :=
  ⟨by decide, by decide,
    (loader_vlans_union.1 "[BridgeVLAN]\nVLAN=10\nVLAN=20\n[Bridge]\nVLAN=20\nVLAN=30\n"
      "eth0" "\nVLAN=10\nVLAN=20\n" "\nVLAN=20\nVLAN=30" none none
      (by decide) (by decide)).1⟩

theorem config_update_self (cfg : InterfaceConfig) (v : Option String)
    (h : cfg.interface_name = v) : { cfg with interface_name := v } = cfg := by
  cases cfg
  cases h
  rfl

theorem interactiveMerge_empty (cfg : InterfaceConfig) :
    interactiveMerge cfg ⟨"", "", "", "", "", ""⟩ = cfg := by
  cases cfg
  rfl

theorem load_interface_name (name : String) (sysMac linkC netC : Option String) :
    (load_existing_config name sysMac linkC netC).interface_name = some name := by
  rcases netC with _ | c <;> rfl

/-- Claim C7: after loading, answering every interactive field prompt with
the empty string yields exactly the loaded configuration; a non-empty
(stripped) answer replaces the corresponding field outright, and a non-empty
VLAN answer such as "11,12" fully replaces any previously loaded VLAN set
with the comma-split values. -/
theorem interactive_overrides :
    (∀ (name : String) (sysMac linkC netC : Option String),
        pyStrip name ≠ "" →
        interactiveConfig name sysMac linkC netC ⟨"", "", "", "", "", ""⟩ =
          some (load_existing_config (pyStrip name) sysMac linkC netC)) ∧
    (∀ (cfg : InterfaceConfig) (a : Answers),
        pyStrip a.vlans = "11,12" → (interactiveMerge cfg a).vlans = ["11", "12"]) ∧
    (∀ (cfg : InterfaceConfig) (a : Answers),
        (pyStrip a.mac ≠ "" → (interactiveMerge cfg a).mac_address = some (pyStrip a.mac)) ∧
        (pyStrip a.alias_ans ≠ "" →
          (interactiveMerge cfg a).link_alias = some (pyStrip a.alias_ans)) ∧
        (pyStrip a.bridge ≠ "" → (interactiveMerge cfg a).bridge = some (pyStrip a.bridge)) ∧
        (pyStrip a.pvid ≠ "" → (interactiveMerge cfg a).pvid = some (pyStrip a.pvid)) ∧
        (pyStrip a.egress ≠ "" →
          (interactiveMerge cfg a).egress_vlan = some (pyStrip a.egress)) ∧
        (pyStrip a.vlans ≠ "" →
          (interactiveMerge cfg a).vlans = pySplitComma (pyStrip a.vlans)) ∧
        (pyStrip a.vlans = "" → (interactiveMerge cfg a).vlans = cfg.vlans)) := by
  refine ⟨?_, ?_, ?_⟩
  · intro name sysMac linkC netC h
    unfold interactiveConfig
    rw [if_neg h]
    show some (interactiveMerge
        { load_existing_config (pyStrip name) sysMac linkC netC with
            interface_name := some (pyStrip name) }
        ⟨"", "", "", "", "", ""⟩) =
      some (load_existing_config (pyStrip name) sysMac linkC netC)
    rw [config_update_self _ _ (load_interface_name (pyStrip name) sysMac linkC netC),
      interactiveMerge_empty]
  · intro cfg a h
    show (if pyStrip a.vlans = "" then cfg.vlans else pySplitComma (pyStrip a.vlans)) =
      ["11", "12"]
    rw [h, if_neg (by decide : ¬ ("11,12" = ""))]
    decide
  · intro cfg a
    refine ⟨fun h => ?_, fun h => ?_, fun h => ?_, fun h => ?_, fun h => ?_, fun h => ?_,
      fun h => ?_⟩
    · show (if pyStrip a.mac = "" then cfg.mac_address else some (pyStrip a.mac)) = _
      rw [if_neg h]
    · show (if pyStrip a.alias_ans = "" then cfg.link_alias else some (pyStrip a.alias_ans)) = _
      rw [if_neg h]
    · show (if pyStrip a.bridge = "" then cfg.bridge else some (pyStrip a.bridge)) = _
      rw [if_neg h]
    · show (if pyStrip a.pvid = "" then cfg.pvid else some (pyStrip a.pvid)) = _
      rw [if_neg h]
    · show (if pyStrip a.egress = "" then cfg.egress_vlan else some (pyStrip a.egress)) = _
      rw [if_neg h]
    · show (if pyStrip a.vlans = "" then cfg.vlans else pySplitComma (pyStrip a.vlans)) = _
      rw [if_neg h]
    · show (if pyStrip a.vlans = "" then cfg.vlans else pySplitComma (pyStrip a.vlans)) = _
      rw [if_pos h]

theorem interactive_overrides_witness :
    pyStrip "eth0" ≠ "" ∧
    interactiveConfig "eth0" none none none ⟨"", "", "", "", "", ""⟩ =
      some (load_existing_config (pyStrip "eth0") none none none) ∧
    (interactiveMerge (load_existing_config "eth0" none none (some "[BridgeVLAN]\nVLAN=10\n"))
        ⟨"", "", "", "", "", "11,12"⟩).vlans = ["11", "12"] :=
  ⟨by decide, interactive_overrides.1 "eth0" none none none (by decide),
    interactive_overrides.2.1 _ _ (by decide)⟩
